import Mathlib

/-!
Shallow embedding of the mention enrichment and temporal aggregation
pipeline of the social-media analytics dashboard (app.py, twitter_api.py,
youtube_api.py).  Python strings are modelled as Lean `String` (the
vocabularies and word lists involved are ASCII, where `Char.toLower`
agrees with Python's `str.lower`); Python's substring test `needle in
haystack` is modelled by `strIn`; pandas time-bucket grouping is modelled
by counting over a list of `Mention` records.
-/

namespace SMA

/-- `matchAt needle hay`: does `hay` start with `needle`? -/
def matchAt : List Char → List Char → Bool
  | [], _ => true
  | _ :: _, [] => false
  | a :: as, b :: bs => a == b && matchAt as bs

/-- `containsSub needle hay`: does `needle` occur as a contiguous run
inside `hay`?  Model of Python's `needle in hay` on strings. -/
def containsSub (needle : List Char) : List Char → Bool
  | [] => needle.isEmpty
  | c :: rest => matchAt needle (c :: rest) || containsSub needle rest

/-- Python `needle in haystack` on strings, as their character lists. -/
def strIn (needle haystack : List Char) : Bool :=
  containsSub needle haystack

/-- Python `str.lower` (ASCII model), as a character list. -/
def pyLower (s : String) : List Char := s.data.map Char.toLower

/-- Python `str.capitalize` (ASCII model): first character upper-cased,
the rest lower-cased. -/
def pyCapitalize (s : String) : String :=
  match s.data with
  | [] => ""
  | c :: rest => String.mk (c.toUpper :: rest.map Char.toLower)

/-- app.py line 198: the configured product vocabulary. -/
def NESTLE_PRODUCTS : List String :=
  ["KitKat", "Maggi", "Nescafe", "Milo", "Smarties", "Nestea", "Toll House"]

/-- app.py line 199: the configured flavor vocabulary. -/
def FLAVOR_KEYWORDS : List String :=
  ["chocolate", "vanilla", "strawberry", "coffee", "caramel", "mint", "matcha"]

/-- app.py lines 73-79, `extract_product_mentions`: scan the product list
in configured order and return the first product whose lower-cased name
is a substring of the lower-cased text; `"Other"` when none matches. -/
def extract_product_mentions (text : String) : List String → String
  | [] => "Other"
  | p :: ps =>
      if strIn (pyLower p) (pyLower text) then p
      else extract_product_mentions text ps

/-- app.py lines 81-88, `extract_flavor_mentions`: collect every flavor
whose lower-cased name is a substring of the lower-cased text; the Python
function returns `None` (not `[]`) when the collected list is empty. -/
def extract_flavor_mentions (text : String) (flavors : List String) :
    Option (List String) :=
  let found := flavors.filter fun f => strIn (pyLower f) (pyLower text)
  if found.isEmpty then none else some found

/-- The keyword sentiment heuristic shared (with different word lists) by
twitter_api.analyze_sentiment and youtube_api.analyze_sentiment: count
how many of each list's words occur in the lower-cased text and compare. -/
def keyword_sentiment (positive_words negative_words : List String)
    (text : String) : String :=
  let text_lower := pyLower text
  let pos_count := positive_words.countP fun w => strIn w.data text_lower
  let neg_count := negative_words.countP fun w => strIn w.data text_lower
  if pos_count > neg_count then "Positive"
  else if neg_count > pos_count then "Negative"
  else "Neutral"

namespace twitter_api

/-- twitter_api.py line 49. -/
def positive_words : List String :=
  ["love", "great", "awesome", "best", "delicious", "yummy", "excellent"]

/-- twitter_api.py line 50. -/
def negative_words : List String :=
  ["hate", "bad", "terrible", "worst", "disgusting", "awful"]

/-- twitter_api.py lines 47-61, `analyze_sentiment`. -/
def analyze_sentiment (text : String) : String :=
  keyword_sentiment positive_words negative_words text

/-- twitter_api.py line 65: the product vocabulary of `extract_product`
(note: lower-case spellings). -/
def products : List String :=
  ["kitkat", "maggi", "nescafe", "milo", "smarties"]

/-- The scanning loop of twitter_api.py lines 68-71: the matching product
is returned `capitalize`d. -/
def extract_product_go (text_lower : List Char) : List String → String
  | [] => "Other"
  | p :: ps =>
      if strIn p.data text_lower then pyCapitalize p
      else extract_product_go text_lower ps

/-- twitter_api.py lines 63-71, `extract_product`. -/
def extract_product (text : String) : String :=
  extract_product_go (pyLower text) products

end twitter_api

namespace youtube_api

/-- youtube_api.py line 79. -/
def positive_words : List String :=
  ["love", "great", "awesome", "best", "delicious"]

/-- youtube_api.py line 80. -/
def negative_words : List String :=
  ["hate", "bad", "terrible", "worst"]

/-- youtube_api.py lines 77-91, `analyze_sentiment`. -/
def analyze_sentiment (text : String) : String :=
  keyword_sentiment positive_words negative_words text

end youtube_api

/-- One enriched record of `combined_df` (app.py lines 240-243): the
columns kept for aggregation are `date`, `product`, `flavors`, `quarter`,
`year`.  Calendar buckets are modelled as numbers ordered like the
corresponding pandas periods (`date`: day index, `quarter`: quarter
index, `year`: calendar year). -/
structure Mention where
  date : Nat
  product : String
  flavors : Option (List String)
  quarter : Nat
  year : Nat
deriving Repr, DecidableEq

/-- The count that `combined_df.groupby(['date','product']).size()`
(app.py line 333) assigns to the key `(d, p)`; keys absent from the
grouped table have count 0. -/
def dailyCount (rows : List Mention) (d : Nat) (p : String) : Nat :=
  rows.countP fun m => m.date == d && m.product == p

/-- The count that `combined_df.groupby(['quarter','product']).size()`
(app.py line 348) assigns to the key `(q, p)`. -/
def quarterlyCount (rows : List Mention) (q : Nat) (p : String) : Nat :=
  rows.countP fun m => m.quarter == q && m.product == p

/-- The count that `combined_df.groupby(['year','product']).size()`
(app.py line 403) assigns to the key `(y, p)`. -/
def yearlyCount (rows : List Mention) (y : Nat) (p : String) : Nat :=
  rows.countP fun m => m.year == y && m.product == p

/-- Insert into a descending-sorted list (model of one step of Python's
`sorted(..., reverse=True)`). -/
def insertDesc (x : Nat) : List Nat → List Nat
  | [] => [x]
  | y :: ys => if y ≤ x then x :: y :: ys else y :: insertDesc x ys

/-- `sorted(l, reverse=True)` for distinct naturals. -/
def sortDesc : List Nat → List Nat
  | [] => []
  | x :: xs => insertDesc x (sortDesc xs)

/-- app.py line 349, `sorted(quarterly_data['quarter'].unique(),
reverse=True)`: the distinct quarters of the data, most recent first. -/
def uniqueQuarters (rows : List Mention) : List Nat :=
  sortDesc (rows.map (fun m => m.quarter)).dedup

/-- app.py line 404, the distinct years of the data, most recent first. -/
def uniqueYears (rows : List Mention) : List Nat :=
  sortDesc (rows.map (fun m => m.year)).dedup

/-- The distinct products having at least one mention in quarter `q`:
the products of the rows `quarterly_data[quarterly_data['quarter'] == q]`
(app.py lines 355-356). -/
def productsInQuarter (rows : List Mention) (q : Nat) : List String :=
  ((rows.filter fun m => m.quarter == q).map (fun m => m.product)).dedup

/-- One row of `comparison_df` (app.py lines 358-368). -/
structure ComparisonRow where
  product : String
  mentions_current : Nat
  mentions_previous : Nat
  change : Int
  change_pct : Rat
deriving Repr, DecidableEq

/-- The `comparison_df` row for product `p` given the current and
previous quarters: counts from the grouped table (a side with no
mentions is `NaN` after the outer merge and `fillna(0)` makes it 0,
which is exactly the count 0), `change = current - previous`, and
`change_pct = change / previous.replace(0, 1) * 100`. -/
def mkComparisonRow (rows : List Mention) (curQ prevQ : Nat) (p : String) :
    ComparisonRow :=
  let cur := quarterlyCount rows curQ p
  let prev := quarterlyCount rows prevQ p
  { product := p
    mentions_current := cur
    mentions_previous := prev
    change := (cur : Int) - (prev : Int)
    change_pct := (((cur : Int) - (prev : Int) : Int) : Rat)
      / ((if prev == 0 then 1 else prev : Nat) : Rat) * 100 }

/-- The products of the outer merge of the current-quarter and
previous-quarter grouped tables on `product` (app.py lines 358-364):
products of the left (current) table in order, then the right-only
products. -/
def comparisonProducts (rows : List Mention) (curQ prevQ : Nat) :
    List String :=
  (productsInQuarter rows curQ ++ productsInQuarter rows prevQ).dedup

/-- The quarterly Period Comparator (app.py lines 345-398): when the data
holds at least two distinct quarters, the two most recent ones are
compared and `comparison_df` is rendered; otherwise the guard at line 351
fails and no comparison is produced (`none`). -/
def quarterComparison (rows : List Mention) : Option (List ComparisonRow) :=
  match uniqueQuarters rows with
  | curQ :: prevQ :: _ =>
      some ((comparisonProducts rows curQ prevQ).map
        (mkComparisonRow rows curQ prevQ))
  | _ => none

/-- The grouped yearly table `yearly_data` (app.py line 403) as the list
of present `(year, product)` keys with their counts (pandas sorts the
keys; key order is irrelevant to the claims and is not modelled). -/
def yearlyData (rows : List Mention) : List ((Nat × String) × Nat) :=
  ((rows.map fun m => (m.year, m.product)).dedup).map fun k =>
    (k, rows.countP fun m => m.year == k.1 && m.product == k.2)

/-- The year-over-year comparison tab (app.py lines 400-432): the slope
chart over `yearly_data` is only built when the guard at line 406 sees at
least two distinct years; otherwise nothing is produced. -/
def yearComparison (rows : List Mention) :
    Option (List ((Nat × String) × Nat)) :=
  match uniqueYears rows with
  | _ :: _ :: _ => some (yearlyData rows)
  | _ => none

/-- One row of `all_flavors_data` (app.py lines 441-451). -/
structure FlavorRecord where
  date : Nat
  flavor : String
  product : String
  quarter : Nat
  year : Nat
deriving Repr, DecidableEq

/-- The `all_flavors_data` rows contributed by one mention (app.py lines
443-451): nothing when `flavors` is `None` (or empty), else one record
per flavor of the mention, with the flavor `capitalize`d. -/
def flavorRecordsOf (m : Mention) : List FlavorRecord :=
  match m.flavors with
  | none => []
  | some fs => fs.map fun f =>
      { date := m.date
        flavor := pyCapitalize f
        product := m.product
        quarter := m.quarter
        year := m.year }

/-- app.py lines 441-453, `all_flavors_data`: the flavor fan-out of the
whole batch, one record per (mention, flavor) pair. -/
def all_flavors_data (rows : List Mention) : List FlavorRecord :=
  (rows.map flavorRecordsOf).flatten

/-- Example batch: five Milo mentions in quarter 2 and one KitKat
mention in quarter 1. -/
def c1Rows : List Mention :=
  [⟨0, "Milo", none, 2, 2024⟩, ⟨0, "Milo", none, 2, 2024⟩,
   ⟨0, "Milo", none, 2, 2024⟩, ⟨0, "Milo", none, 2, 2024⟩,
   ⟨0, "Milo", none, 2, 2024⟩, ⟨0, "KitKat", none, 1, 2024⟩]

/-- Example mention tagged with two flavors. -/
def c6Mention : Mention := ⟨0, "KitKat", some ["chocolate", "mint"], 1, 2024⟩

/-- Example batch for permutation invariance. -/
def c7RowsA : List Mention :=
  [⟨0, "KitKat", none, 1, 2023⟩, ⟨1, "Milo", none, 2, 2024⟩]

/-- `c7RowsA` in the opposite order. -/
def c7RowsB : List Mention :=
  [⟨1, "Milo", none, 2, 2024⟩, ⟨0, "KitKat", none, 1, 2023⟩]

/-- Example batch whose mentions all fall in one quarter and one year. -/
def c8Rows : List Mention :=
  [⟨0, "KitKat", none, 1, 2024⟩, ⟨1, "Milo", none, 1, 2024⟩]

/- ======================= helper lemmas ======================= -/

/-- pandas `.replace(0, 1)` on a natural count is `max · 1`. -/
theorem replace_zero_one (n : Nat) : (if n == 0 then 1 else n) = max n 1 := by
  cases n <;> simp

/-- A product is listed for quarter `q` exactly when it has a positive
count there. -/
theorem mem_productsInQuarter (rows : List Mention) (q : Nat) (p : String) :
    p ∈ productsInQuarter rows q ↔ 0 < quarterlyCount rows q p := by
  simp only [productsInQuarter, quarterlyCount, List.mem_dedup, List.mem_map,
    List.mem_filter, List.countP_pos_iff, Bool.and_eq_true, beq_iff_eq]
  constructor
  · rintro ⟨m, ⟨hm, hq⟩, hp⟩
    exact ⟨m, hm, hq, hp⟩
  · rintro ⟨m, hm, hq, hp⟩
    exact ⟨m, ⟨hm, hq⟩, hp⟩

/-- `extract_product_mentions` always answers with a configured product
or the sentinel. -/
theorem epm_mem_or_other (text : String) (products : List String) :
    extract_product_mentions text products ∈ products ∨
      extract_product_mentions text products = "Other" := by
  induction products with
  | nil => exact Or.inr rfl
  | cons p ps ih =>
    simp only [extract_product_mentions]
    split
    · exact Or.inl (List.mem_cons_self p ps)
    · rcases ih with h | h
      · exact Or.inl (List.mem_cons_of_mem p h)
      · exact Or.inr h

/-- The scanning loop of twitter_api.extract_product always answers with
a capitalized configured product or the sentinel. -/
theorem epg_cap_or_other (text_lower : List Char) (l : List String) :
    (∃ p ∈ l, twitter_api.extract_product_go text_lower l = pyCapitalize p) ∨
      twitter_api.extract_product_go text_lower l = "Other" := by
  induction l with
  | nil => exact Or.inr rfl
  | cons p ps ih =>
    simp only [twitter_api.extract_product_go]
    split
    · exact Or.inl ⟨p, List.mem_cons_self p ps, rfl⟩
    · rcases ih with ⟨q, hq, h⟩ | h
      · exact Or.inl ⟨q, List.mem_cons_of_mem p hq, h⟩
      · exact Or.inr h

/- ======================= claim theorems ======================= -/

/-- Claim C2: the product tagger returns the first product in configured
order whose lower-cased name is a substring of the lower-cased text
(`List.find?` scans in list order), and the sentinel "Other" when no
configured name matches; matching is pure substring matching, so a text
containing "chocolatey" matches the vocabulary entry "chocolate". -/
theorem product_tagger_first_match (text : String) (products : List String) :
    extract_product_mentions text products
        = ((products.find? fun p => strIn (pyLower p) (pyLower text)).getD
          "Other")
      ∧ extract_product_mentions "This is so chocolatey" ["chocolate"]
        = "chocolate" := by
  refine ⟨?_, by decide⟩
  induction products with
  | nil => rfl
  | cons p ps ih =>
    simp only [extract_product_mentions, List.find?]
    by_cases h : strIn (pyLower p) (pyLower text) = true
    · simp [h]
    · simp only [Bool.not_eq_true] at h
      simp [h, ih]

/-- Claim C3: the keyword sentiment heuristic (instantiated with their
respective word lists by twitter_api.analyze_sentiment and
youtube_api.analyze_sentiment) counts the words of each list occurring
case-insensitively in the text and returns Positive exactly when the
positive count exceeds the negative one, Negative exactly when the
negative count exceeds the positive one, and Neutral exactly on a tie. -/
theorem sentiment_classifier_spec (positive_words negative_words : List String)
    (text : String) :
    (keyword_sentiment positive_words negative_words text = "Positive"
        ↔ negative_words.countP (fun w => strIn w.data (pyLower text))
          < positive_words.countP (fun w => strIn w.data (pyLower text)))
    ∧ (keyword_sentiment positive_words negative_words text = "Negative"
        ↔ positive_words.countP (fun w => strIn w.data (pyLower text))
          < negative_words.countP (fun w => strIn w.data (pyLower text)))
    ∧ (keyword_sentiment positive_words negative_words text = "Neutral"
        ↔ positive_words.countP (fun w => strIn w.data (pyLower text))
          = negative_words.countP (fun w => strIn w.data (pyLower text)))
    ∧ twitter_api.analyze_sentiment text
      = keyword_sentiment twitter_api.positive_words
          twitter_api.negative_words text
    ∧ youtube_api.analyze_sentiment text
      = keyword_sentiment youtube_api.positive_words
          youtube_api.negative_words text := by
  refine ⟨?_, ?_, ?_, rfl, rfl⟩ <;>
    · simp only [keyword_sentiment]
      split_ifs with h1 h2 <;> simp_all <;> omega

/-- Claim C4 counterexample: twitter_api.extract_product returns
"Kitkat" (the `capitalize`d lower-case vocabulary entry), which is
neither an element of its configured vocabulary (spelled "kitkat") nor
the sentinel "Other", and is not the app-level spelling "KitKat"
either. -/
theorem extract_product_spelling_counterexample :
    twitter_api.extract_product "i love kitkat" = "Kitkat"
      ∧ "Kitkat" ∉ twitter_api.products
      ∧ "Kitkat" ≠ "Other"
      ∧ "Kitkat" ∉ NESTLE_PRODUCTS := by decide

/-- Claim C4 (amended): extract_product_mentions always returns one
element of its configured vocabulary, with its configured spelling, or
the sentinel "Other"; twitter_api.extract_product instead returns the
`capitalize`d form of one of its (lower-case) vocabulary entries, or
"Other". -/
theorem product_tag_vocab_or_other (text : String) (products : List String) :
    (extract_product_mentions text products ∈ products
      ∨ extract_product_mentions text products = "Other")
    ∧ ((∃ p ∈ twitter_api.products,
          twitter_api.extract_product text = pyCapitalize p)
      ∨ twitter_api.extract_product text = "Other") :=
  ⟨epm_mem_or_other text products,
   epg_cap_or_other (pyLower text) twitter_api.products⟩

/-- Claim C5 counterexample: on a text matching no configured flavor the
flavor tagger returns `None` (a null/absent value), not the empty
list. -/
theorem flavor_tagger_none_counterexample :
    extract_flavor_mentions "hello" FLAVOR_KEYWORDS = none
      ∧ extract_flavor_mentions "hello" FLAVOR_KEYWORDS
        ≠ some ([] : List String) := by decide

/-- Claim C5 (amended): the flavor tagger collects exactly the
configured flavors whose lower-cased name substring-matches the
lower-cased text; when at least one matches it returns that non-empty
collection, and when none matches it returns `None` (a null/absent
value), never the empty list. -/
theorem flavor_tagger_spec (text : String) (flavors : List String) :
    ((∀ f ∈ flavors, strIn (pyLower f) (pyLower text) = false)
        → extract_flavor_mentions text flavors = none)
    ∧ ∀ fs, extract_flavor_mentions text flavors = some fs
        → fs ≠ []
          ∧ ∀ f, f ∈ fs ↔ f ∈ flavors ∧ strIn (pyLower f) (pyLower text) = true := by
  constructor
  · intro h
    have : flavors.filter (fun f => strIn (pyLower f) (pyLower text)) = [] := by
      simp only [List.filter_eq_nil_iff]
      intro f hf
      simp [h f hf]
    simp [extract_flavor_mentions, this]
  · intro fs hfs
    simp only [extract_flavor_mentions] at hfs
    split at hfs
    · exact absurd hfs (by simp)
    · rename_i hne
      obtain rfl : flavors.filter (fun f => strIn (pyLower f) (pyLower text)) = fs :=
        Option.some.inj hfs
      refine ⟨by simpa using hne, fun f => ?_⟩
      simp [List.mem_filter]

/-- Claim C1: when the data holds at least two distinct quarters, the
comparator emits exactly one ComparisonRow per product present in either
of the two most recent quarters (a product is present exactly when its
count there is positive; the missing side's count is the count 0), with
absolute change equal to current minus previous and percentage change
equal to change divided by max(previous, 1) times 100. -/
theorem comparison_rows_spec (rows : List Mention) (curQ prevQ : Nat)
    (rest : List Nat) (h : uniqueQuarters rows = curQ :: prevQ :: rest) :
    ∃ out, quarterComparison rows = some out
      ∧ (∀ p, p ∈ out.map (fun r => r.product)
          ↔ 0 < quarterlyCount rows curQ p ∨ 0 < quarterlyCount rows prevQ p)
      ∧ (out.map (fun r => r.product)).Nodup
      ∧ ∀ r ∈ out,
          r.mentions_current = quarterlyCount rows curQ r.product
          ∧ r.mentions_previous = quarterlyCount rows prevQ r.product
          ∧ r.change = (r.mentions_current : Int) - (r.mentions_previous : Int)
          ∧ r.change_pct
            = ((r.change : Rat) / ((max r.mentions_previous 1 : Nat) : Rat))
              * 100 := by
  refine ⟨(comparisonProducts rows curQ prevQ).map
    (mkComparisonRow rows curQ prevQ), ?_, ?_, ?_, ?_⟩
  · simp [quarterComparison, h]
  all_goals
    have hmap : ((comparisonProducts rows curQ prevQ).map
        (mkComparisonRow rows curQ prevQ)).map (fun r => r.product)
        = comparisonProducts rows curQ prevQ := by
      rw [List.map_map]
      exact List.map_id _
  · intro p
    rw [hmap]
    simp only [comparisonProducts, List.mem_dedup, List.mem_append,
      mem_productsInQuarter]
  · rw [hmap]
    exact List.nodup_dedup _
  · intro r hr
    obtain ⟨p, _, rfl⟩ := List.mem_map.1 hr
    refine ⟨rfl, rfl, rfl, ?_⟩
    show (((quarterlyCount rows curQ p : Int)
        - (quarterlyCount rows prevQ p : Int) : Int) : Rat)
      / ((if quarterlyCount rows prevQ p == 0 then 1
          else quarterlyCount rows prevQ p : Nat) : Rat) * 100 = _
    rw [replace_zero_one]
    rfl

/-- Claim C1 witness: on a batch with five Milo mentions in the current
quarter and one KitKat mention in the previous one, the comparator
produces the specified rows; in particular Milo, present only in the
current quarter with count 5, gets the row
ComparisonRow(current = 5, previous = 0, change = 5, change_pct = 500). -/
theorem comparison_rows_spec_witness :
    uniqueQuarters c1Rows = [2, 1]
    ∧ (∃ out, quarterComparison c1Rows = some out
      ∧ (∀ p, p ∈ out.map (fun r => r.product)
          ↔ 0 < quarterlyCount c1Rows 2 p ∨ 0 < quarterlyCount c1Rows 1 p)
      ∧ (out.map (fun r => r.product)).Nodup
      ∧ ∀ r ∈ out,
          r.mentions_current = quarterlyCount c1Rows 2 r.product
          ∧ r.mentions_previous = quarterlyCount c1Rows 1 r.product
          ∧ r.change = (r.mentions_current : Int) - (r.mentions_previous : Int)
          ∧ r.change_pct
            = ((r.change : Rat) / ((max r.mentions_previous 1 : Nat) : Rat))
              * 100)
    ∧ mkComparisonRow c1Rows 2 1 "Milo"
      = ⟨"Milo", 5, 0, 5, 500⟩ := by
  refine ⟨by decide, comparison_rows_spec c1Rows 2 1 [] (by decide), ?_⟩
  have hc : quarterlyCount c1Rows 2 "Milo" = 5 := by decide
  have hp : quarterlyCount c1Rows 1 "Milo" = 0 := by decide
  simp only [mkComparisonRow, hc, hp]
  norm_num

/-- Claim C6: each mention is flattened into one flavor record per
flavor of its `flavors` list, so a mention tagged with N flavors (whose
capitalized forms are distinct, as holds for any sub-list of the
configured vocabulary) adds exactly N records overall and exactly one
record to each of its N flavors' buckets, never a fractional share. -/
theorem flavor_fanout (rows : List Mention) (m : Mention) (fs : List String)
    (hf : m.flavors = some fs) (hnd : (fs.map pyCapitalize).Nodup) :
    (all_flavors_data (m :: rows)).length
      = fs.length + (all_flavors_data rows).length
    ∧ ∀ f ∈ fs,
        (all_flavors_data (m :: rows)).countP
          (fun r => r.flavor == pyCapitalize f)
        = (all_flavors_data rows).countP
          (fun r => r.flavor == pyCapitalize f) + 1 := by
  have hrec : all_flavors_data (m :: rows)
      = flavorRecordsOf m ++ all_flavors_data rows := by
    simp [all_flavors_data]
  have hfl : flavorRecordsOf m
      = fs.map fun f =>
        { date := m.date, flavor := pyCapitalize f, product := m.product,
          quarter := m.quarter, year := m.year } := by
    simp [flavorRecordsOf, hf]
  constructor
  · rw [hrec, List.length_append, hfl, List.length_map]
  · intro f hfmem
    rw [hrec, List.countP_append, hfl, Nat.add_comm]
    congr 1
    rw [List.countP_map]
    have : ((fun r : FlavorRecord => r.flavor == pyCapitalize f) ∘ fun g =>
        ({ date := m.date, flavor := pyCapitalize g, product := m.product,
           quarter := m.quarter, year := m.year } : FlavorRecord))
        = fun g => pyCapitalize g == pyCapitalize f := rfl
    rw [this]
    have hcount : fs.countP (fun g => pyCapitalize g == pyCapitalize f)
        = (fs.map pyCapitalize).count (pyCapitalize f) := by
      rw [List.count, List.countP_map]
      rfl
    rw [hcount]
    exact List.count_eq_one_of_mem hnd (List.mem_map_of_mem pyCapitalize hfmem)

/-- Claim C6 witness: a mention tagged with flavors chocolate and mint
adds two flavor records in total, one to the Chocolate bucket and one to
the Mint bucket. -/
theorem flavor_fanout_witness :
    ((all_flavors_data (c6Mention :: [])).length
      = (["chocolate", "mint"] : List String).length
        + (all_flavors_data []).length)
    ∧ ∀ f ∈ (["chocolate", "mint"] : List String),
        (all_flavors_data (c6Mention :: [])).countP
          (fun r => r.flavor == pyCapitalize f)
        = (all_flavors_data []).countP
          (fun r => r.flavor == pyCapitalize f) + 1 :=
  flavor_fanout [] c6Mention ["chocolate", "mint"] rfl (by decide)

/-- Claim C7: temporal aggregation is order-independent: permuting the
input mentions leaves every (bucket, product) count unchanged, at each
of the three granularities. -/
theorem aggregation_perm_invariant (rows rows' : List Mention)
    (h : rows.Perm rows') (q y d : Nat) (p : String) :
    quarterlyCount rows q p = quarterlyCount rows' q p
    ∧ yearlyCount rows y p = yearlyCount rows' y p
    ∧ dailyCount rows d p = dailyCount rows' d p :=
  ⟨h.countP_eq _, h.countP_eq _, h.countP_eq _⟩

/-- Claim C7 witness: swapping the two mentions of a concrete batch
leaves the quarter, year and day counts unchanged. -/
theorem aggregation_perm_invariant_witness :
    quarterlyCount c7RowsA 2 "Milo" = quarterlyCount c7RowsB 2 "Milo"
    ∧ yearlyCount c7RowsA 2024 "Milo" = yearlyCount c7RowsB 2024 "Milo"
    ∧ dailyCount c7RowsA 1 "Milo" = dailyCount c7RowsB 1 "Milo" :=
  aggregation_perm_invariant c7RowsA c7RowsB (by decide) 2 2024 1 "Milo"

/-- Claim C8: with fewer than two distinct quarters the quarterly
comparator produces no comparison at all (no ComparisonRow, no fabricated
previous period), and with fewer than two distinct years the yearly
comparison produces nothing either. -/
theorem comparator_insufficient_data (rows : List Mention) :
    ((uniqueQuarters rows).length < 2 → quarterComparison rows = none)
    ∧ ((uniqueYears rows).length < 2 → yearComparison rows = none) := by
  constructor
  · intro h
    match hq : uniqueQuarters rows with
    | [] => simp [quarterComparison, hq]
    | [a] => simp [quarterComparison, hq]
    | a :: b :: t => rw [hq] at h; simp at h; omega
  · intro h
    match hy : uniqueYears rows with
    | [] => simp [yearComparison, hy]
    | [a] => simp [yearComparison, hy]
    | a :: b :: t => rw [hy] at h; simp at h; omega

/-- Claim C8 witness: on a concrete batch whose mentions all fall in one
quarter of one year, neither comparison is produced. -/
theorem comparator_insufficient_data_witness :
    quarterComparison c8Rows = none ∧ yearComparison c8Rows = none :=
  ⟨(comparator_insufficient_data c8Rows).1 (by decide),
   (comparator_insufficient_data c8Rows).2 (by decide)⟩

/-- Claim C9: tagging and sentiment classification are total over any
string: the sentiment is always one of the three labels, the product tag
is always a vocabulary entry or "Other", every returned flavor comes
from the vocabulary; on the empty string the product resolves to
"Other", no flavors are found (the tagger gives `None`), and both
bundled classifiers answer "Neutral". -/
theorem tagging_total (text : String)
    (positive_words negative_words products flavors : List String) :
    (keyword_sentiment positive_words negative_words text = "Positive"
      ∨ keyword_sentiment positive_words negative_words text = "Negative"
      ∨ keyword_sentiment positive_words negative_words text = "Neutral")
    ∧ (extract_product_mentions text products ∈ products
      ∨ extract_product_mentions text products = "Other")
    ∧ (∀ fs, extract_flavor_mentions text flavors = some fs
        → ∀ f ∈ fs, f ∈ flavors)
    ∧ extract_product_mentions "" NESTLE_PRODUCTS = "Other"
    ∧ extract_flavor_mentions "" FLAVOR_KEYWORDS = none
    ∧ twitter_api.analyze_sentiment "" = "Neutral"
    ∧ youtube_api.analyze_sentiment "" = "Neutral" := by
  refine ⟨?_, epm_mem_or_other text products, ?_, by decide, by decide,
    by decide, by decide⟩
  · simp only [keyword_sentiment]
    split_ifs <;> simp
  · intro fs hfs f hf
    simp only [extract_flavor_mentions] at hfs
    split at hfs
    · exact absurd hfs (by simp)
    · obtain rfl := Option.some.inj hfs
      exact (List.mem_filter.1 hf).1

/-- Claim C10: the two bundled keyword sentiment classifiers are not
extensionally equal: on the text "so yummy" the Twitter classifier
answers Positive (its positive list contains "yummy") while the YouTube
classifier answers Neutral (its lists do not contain "yummy"). -/
theorem sentiment_classifiers_differ :
    twitter_api.analyze_sentiment "so yummy" = "Positive"
      ∧ youtube_api.analyze_sentiment "so yummy" = "Neutral"
      ∧ twitter_api.analyze_sentiment "so yummy"
        ≠ youtube_api.analyze_sentiment "so yummy" := by decide

end SMA
